import Mathlib

/-!
Formal model of the content cache and background-sync coordinator of the
whatisonthe.tv repository: the staleness evaluator, the content cache
facade (`resolve`), the dedup gate and job queue (`enqueue`), and the
sync worker (retry loop and full-sync commit discipline).

The backend implementation (`app/services/content_repository.py`,
`app/tasks/*`, `app/workers/*`) is not present in the source tree; the
definitions below are therefore modelled from the specification of the
subsystem, and each such definition says so in its doc comment.
Time is measured in whole days (an `Int` timestamp).
-/

namespace ContentSync

/-- Modelled from the spec: the three entity classes handled by the
content cache (`entityClass` of a CachedEntity, §3). The implementing
module `app/services/content_repository.py` is absent from the tree. -/
inductive EntityClass
  | series
  | movie
  | person
deriving DecidableEq, Repr

/-- Modelled from the spec: the TTL table of §4.1 — series/movie = 7
days, person = 14 days — for the absent staleness configuration of the
backend. Timestamps are measured in days, so the TTL is a day count. -/
def ttl : EntityClass → Int
  | .series => 7
  | .movie => 7
  | .person => 14

/-- Modelled from the spec: the Staleness Evaluator of §4.1 (absent
backend module). `true` when `lastSyncedAt` is null, otherwise true iff
`now - lastSyncedAt > ttl entityClass`. A pure function of its
arguments. -/
def isStale (c : EntityClass) (lastSyncedAt : Option Int) (now : Int) : Bool :=
  match lastSyncedAt with
  | none => true
  | some t => decide (now - t > ttl c)

/-- Modelled from the spec: the core fields of a cached record (name,
overview, imagery references), opaque to this subsystem (§3). -/
structure CoreFields where
  name : String
  overview : String
deriving DecidableEq, Repr

/-- Modelled from the spec: an episode row as persisted by a full sync
(openspec content domain, Episode model). -/
structure Episode where
  tvdbId : Nat
  seasonNumber : Nat
  episodeNumber : Nat
deriving DecidableEq, Repr

/-- Modelled from the spec: an episode ordering exposed by the provider —
the canonical aired order, or a named alternate ordering (§4.4 step 2). -/
inductive OrderingKind
  | aired
  | alternate (tag : String)
deriving DecidableEq, Repr

/-- Modelled from the spec: one episode set of the provider's full
payload, labelled with its ordering (§4.4 step 2). -/
structure EpisodeSet where
  ordering : OrderingKind
  episodes : List Episode
deriving DecidableEq, Repr

/-- Modelled from the spec: the provider's full payload — detail plus
relational sub-resources: credits, genres and the episode sets of every
ordering the provider exposes (§4.4 step 1, §6). -/
structure FullPayload where
  core : CoreFields
  credits : List Nat
  genres : List Nat
  episodeSets : List EpisodeSet
deriving DecidableEq, Repr

/-- Modelled from the spec: the sync state of a stored record; `absent`
is represented by the record not being in the store (§3). -/
inductive SyncState
  | basic
  | full
deriving DecidableEq, Repr

/-- Modelled from the spec: a CachedEntity (§3) — external identity, core
fields, `lastSyncedAt` (null while only a basic record exists), sync
state, and the relational sub-entities written by a full sync. -/
structure CachedEntity where
  entityClass : EntityClass
  externalId : Nat
  core : CoreFields
  lastSyncedAt : Option Int
  syncState : SyncState
  credits : List Nat
  genres : List Nat
  episodes : List Episode
deriving DecidableEq, Repr

/-- Modelled from the spec: the two job priorities (§4.3). -/
inductive Priority
  | interactive
  | background
deriving DecidableEq, Repr

/-- Modelled from the spec: a SyncJob (§3). -/
structure SyncJob where
  entityClass : EntityClass
  externalId : Nat
  enqueuedAt : Int
  attempt : Nat
  priority : Priority
deriving DecidableEq, Repr

/-- Modelled from the spec: the outcome field of a SyncLogEntry (§3). -/
inductive Outcome
  | success
  | failed
  | retrying
deriving DecidableEq, Repr

/-- Modelled from the spec: a SyncLogEntry (§3), append-only. -/
structure SyncLogEntry where
  entityClass : EntityClass
  externalId : Nat
  attempt : Nat
  outcome : Outcome
  occurredAt : Int
  errorDetail : Option String
deriving DecidableEq, Repr

/-- A job identity for dedup purposes: `(entityClass, externalId)`. -/
abbrev Identity := EntityClass × Nat

/-- Modelled from the spec: the mutable state the subsystem coordinates —
the relational store, the dedup gate's in-flight identity set, the job
queue, and the sync log (§2, §5). -/
structure SysState where
  store : List CachedEntity
  inflight : List Identity
  queue : List SyncJob
  syncLog : List SyncLogEntry
deriving DecidableEq, Repr

/-- Does a stored record carry the given identity? -/
def matchesId (c : EntityClass) (xid : Nat) (e : CachedEntity) : Bool :=
  decide (e.entityClass = c ∧ e.externalId = xid)

/-- Modelled from the spec: the store's `getCachedEntity` read (§6). -/
def getCachedEntity (store : List CachedEntity) (c : EntityClass) (xid : Nat) :
    Option CachedEntity :=
  store.find? (matchesId c xid)

/-- Modelled from the spec: the store's row-level upsert (§6): the new
row replaces any row of the same identity and leaves every other row
untouched. -/
def upsert (store : List CachedEntity) (e : CachedEntity) : List CachedEntity :=
  e :: store.filter (fun r => !(matchesId e.entityClass e.externalId r))

/-- Number of queued jobs carrying a given identity. -/
def jobsFor (q : List SyncJob) (c : EntityClass) (xid : Nat) : Nat :=
  (q.filter (fun j => decide (j.entityClass = c ∧ j.externalId = xid))).length

/-- Modelled from the spec: the Dedup Gate + Job Queue `enqueue` (§4.3):
a no-op returning `false` when the identity is already in-flight,
otherwise it adds the identity to the in-flight set, pushes a fresh job
(attempt 0) and returns `true`. -/
def enqueue (c : EntityClass) (xid : Nat) (prio : Priority) (now : Int)
    (s : SysState) : Bool × SysState :=
  if (c, xid) ∈ s.inflight then (false, s)
  else
    (true, { s with
      inflight := (c, xid) :: s.inflight,
      queue := s.queue ++ [⟨c, xid, now, 0, prio⟩] })

/-- Modelled from the spec: a provider call's result — not-found is
distinguished from a transient error (§6). -/
inductive FetchResult (α : Type)
  | notFound
  | transientError
  | ok (payload : α)
deriving DecidableEq, Repr

/-- Modelled from the spec: the metadata provider client (§6). -/
structure Provider where
  fetchBasic : EntityClass → Nat → FetchResult CoreFields
  fetchFull : EntityClass → Nat → FetchResult FullPayload

/-- Modelled from the spec: the `servedFrom` tri-state (§4.2). -/
inductive ServedFrom
  | cacheFresh
  | cacheStale
  | fetchedNew
deriving DecidableEq, Repr

/-- Modelled from the spec: the typed errors `resolve` can surface on its
synchronous path (§7): provider-confirmed not-found, or a fetch failure
with no cached fallback. -/
inductive ResolveError
  | notFound
  | fetchFailure
deriving DecidableEq, Repr

/-- Modelled from the spec: the basic record persisted on a cache miss —
minimal data, `lastSyncedAt` null, no relational sub-entities yet (§3). -/
def basicRecord (c : EntityClass) (xid : Nat) (core : CoreFields) : CachedEntity :=
  { entityClass := c, externalId := xid, core := core,
    lastSyncedAt := none, syncState := .basic,
    credits := [], genres := [], episodes := [] }

/-- The outcome of one `resolve` call: the typed result, the state after
the call, and the number of synchronous provider calls the call made. -/
structure ResolveOutput where
  result : Except ResolveError (CachedEntity × ServedFrom)
  state : SysState
  providerCalls : Nat

/-- Modelled from the spec: the Content Cache Facade's `resolve` (§4.2),
absent backend module `app/services/content_repository.py`. Present and
fresh: return `cache-fresh`, no effect. Present and stale: return the
stored record as `cache-stale` and enqueue a full-sync job through the
dedup gate. Absent: one synchronous `fetchBasic` call; not-found and
transient errors surface to the caller unchanged; on success persist the
basic record, enqueue a full-sync job and return `fetched-new`.
`providerCalls` counts the synchronous provider calls of this call
itself; `fetchFull` is never consulted here — the full sync is deferred
to the worker. -/
def resolve (p : Provider) (c : EntityClass) (xid : Nat) (now : Int)
    (s : SysState) : ResolveOutput :=
  match getCachedEntity s.store c xid with
  | some rec =>
    if isStale c rec.lastSyncedAt now then
      { result := .ok (rec, .cacheStale), state := (enqueue c xid .interactive now s).2,
        providerCalls := 0 }
    else
      { result := .ok (rec, .cacheFresh), state := s, providerCalls := 0 }
  | none =>
    match p.fetchBasic c xid with
    | .notFound => { result := .error .notFound, state := s, providerCalls := 1 }
    | .transientError => { result := .error .fetchFailure, state := s, providerCalls := 1 }
    | .ok core =>
      { result := .ok (basicRecord c xid core, .fetchedNew),
        state := (enqueue c xid .interactive now
          { s with store := upsert s.store (basicRecord c xid core) }).2,
        providerCalls := 1 }

/-- Modelled from the spec: the episode filter of §4.4 step 2 — of all
episode sets the provider exposes, only those labelled with the
canonical aired order contribute persisted episodes. -/
def airedEpisodes (payload : FullPayload) : List Episode :=
  ((payload.episodeSets.filter fun st => decide (st.ordering = .aired)).map
    EpisodeSet.episodes).flatten

/-- One relational sub-entity write of a full sync: a credit row, a
genre row, or the episode rows (§4.4 step 3). -/
inductive SubWrite
  | wCredit (personId : Nat)
  | wGenre (genreId : Nat)
  | wEpisodes (episodes : List Episode)
deriving DecidableEq, Repr

/-- Modelled from the spec: the sequence of sub-entity writes a full
sync performs for a payload — every credit, every genre, then the
aired-order episode set (§4.4 steps 2–3). -/
def subWrites (payload : FullPayload) : List SubWrite :=
  payload.credits.map .wCredit ++ payload.genres.map .wGenre ++
    [.wEpisodes (airedEpisodes payload)]

/-- Apply one staged sub-entity write to a record under construction. -/
def applySubWrite (e : CachedEntity) : SubWrite → CachedEntity
  | .wCredit personId => { e with credits := e.credits ++ [personId] }
  | .wGenre genreId => { e with genres := e.genres ++ [genreId] }
  | .wEpisodes episodes => { e with episodes := episodes }

/-- The staging record of a full sync after its first `k` sub-entity
writes; it lives in the transaction/staging area and is never visible to
readers until committed (§4.4 step 3, design note on partial-write
visibility). -/
def stagedRecord (c : EntityClass) (xid : Nat) (payload : FullPayload)
    (k : Nat) : CachedEntity :=
  ((subWrites payload).take k).foldl applySubWrite (basicRecord c xid payload.core)

/-- The committed result of a completed full sync: every sub-entity
write applied, `syncState` flipped to `full`, `lastSyncedAt` set — the
flip happens only after all sub-writes succeed (§4.4 steps 3–4). -/
def commitFull (c : EntityClass) (xid : Nat) (payload : FullPayload)
    (now : Int) : CachedEntity :=
  { stagedRecord c xid payload (subWrites payload).length with
      syncState := .full, lastSyncedAt := some now }

/-- Modelled from the spec: the transactional store phase of a full sync
(§4.4 step 3). `failAfter = some k` injects a store failure after `k`
staged sub-entity writes: the staging is discarded and the visible store
is unchanged (`none`). Otherwise the completed record is committed with
one atomic upsert. -/
def runFullSync (c : EntityClass) (xid : Nat) (payload : FullPayload)
    (now : Int) (failAfter : Option Nat) (store : List CachedEntity) :
    Option (List CachedEntity) :=
  match failAfter with
  | some k =>
    if k < (subWrites payload).length then none
    else some (upsert store (commitFull c xid payload now))
  | none => some (upsert store (commitFull c xid payload now))

/-- Modelled from the spec: the retry bound of §4.4 step 5. -/
def maxRetries : Nat := 3

/-- Modelled from the spec: exponential backoff, base × 2^attempt (§4.4
step 5), in days. -/
def backoffDelay (attempt : Nat) : Int :=
  1 * 2 ^ attempt

/-- Remove an identity from the dedup gate's in-flight set. -/
def clearInflight (c : EntityClass) (xid : Nat) (l : List Identity) :
    List Identity :=
  l.filter fun i => !(decide (i = (c, xid)))

/-- What the environment does to one background sync attempt: the
provider fetch fails, or it yields a payload and the store phase either
succeeds (`storeFailAfter = none` or past the last write) or fails after
the given number of staged sub-entity writes. -/
inductive SyncEvent
  | fetchFailed
  | fetched (payload : FullPayload) (storeFailAfter : Option Nat)

/-- Modelled from the spec: the failure path of a sync attempt (§4.4
step 5): below the retry bound, re-enqueue with `attempt + 1` after the
backoff delay and keep the in-flight marker; at the bound, write a
terminal `failed` log entry and clear the in-flight marker. The store is
never touched. -/
def failJob (job : SyncJob) (now : Int) (err : String) (s : SysState) : SysState :=
  if job.attempt < maxRetries then
    { s with
      queue := s.queue ++ [{ job with
        attempt := job.attempt + 1,
        enqueuedAt := now + backoffDelay job.attempt }],
      syncLog := s.syncLog ++
        [⟨job.entityClass, job.externalId, job.attempt, .retrying, now, some err⟩] }
  else
    { s with
      inflight := clearInflight job.entityClass job.externalId s.inflight,
      syncLog := s.syncLog ++
        [⟨job.entityClass, job.externalId, job.attempt, .failed, now, some err⟩] }

/-- Modelled from the spec: one sync attempt for a dequeued job (§4.4):
fetch the full payload, run the transactional store phase, and on
success flip to `full`, log `success` and clear the in-flight marker;
any failure takes the retry path. Errors never escape: the result is
always a plain next state. -/
def processJob (ev : SyncEvent) (now : Int) (job : SyncJob) (s : SysState) : SysState :=
  match ev with
  | .fetchFailed => failJob job now "provider fetch failed" s
  | .fetched payload failAfter =>
    match runFullSync job.entityClass job.externalId payload now failAfter s.store with
    | none => failJob job now "store write failed" s
    | some store2 =>
      { s with
        store := store2,
        inflight := clearInflight job.entityClass job.externalId s.inflight,
        syncLog := s.syncLog ++
          [⟨job.entityClass, job.externalId, job.attempt, .success, now, none⟩] }

/-- Modelled from the spec: one Sync Worker iteration — dequeue one job
and execute the attempt; an empty queue leaves the state unchanged
(§4.4). -/
def workerStep (ev : SyncEvent) (now : Int) (s : SysState) : SysState :=
  match s.queue with
  | [] => s
  | job :: rest => processJob ev now job { s with queue := rest }

/-- Run the worker over a sequence of environment events. -/
def runWorker (evs : List (SyncEvent × Int)) (s : SysState) : SysState :=
  evs.foldl (fun st e => workerStep e.1 e.2 st) s

/-- The initial state: empty store, no in-flight identities, empty queue
and log. -/
def initState : SysState :=
  { store := [], inflight := [], queue := [], syncLog := [] }

/-- One step of the subsystem: a `resolve` call on the caller's thread,
or one Sync Worker attempt with an arbitrary environment event. -/
inductive Step : SysState → SysState → Prop
  | resolveStep (p : Provider) (c : EntityClass) (xid : Nat) (now : Int)
      (s : SysState) : Step s (resolve p c xid now s).state
  | syncStep (ev : SyncEvent) (now : Int) (s : SysState) :
      Step s (workerStep ev now s)

/-- States reachable from the initial state by `resolve` calls and
worker attempts. -/
inductive Reachable : SysState → Prop
  | init : Reachable initState
  | step {s s2 : SysState} : Reachable s → Step s s2 → Reachable s2

/-- Sample core fields for concrete evaluations. -/
def sampleCore : CoreFields :=
  ⟨"Breaking Bad", "A high school chemistry teacher turns to crime."⟩

/-- A sample stored record for series 81189, last synced at day 0. -/
def sampleRecord : CachedEntity :=
  { entityClass := .series, externalId := 81189, core := sampleCore,
    lastSyncedAt := some 0, syncState := .basic,
    credits := [], genres := [], episodes := [] }

/-- A state holding only the sample record, nothing in flight. -/
def sampleState : SysState :=
  { store := [sampleRecord], inflight := [], queue := [], syncLog := [] }

/-- A provider whose every call reports a transient error. -/
def quietProvider : Provider :=
  ⟨fun _ _ => .transientError, fun _ _ => .transientError⟩

/-- A provider that reports not-found for every identity. -/
def notFoundProvider : Provider :=
  ⟨fun _ _ => .notFound, fun _ _ => .notFound⟩

/-- An aired-order sample episode. -/
def sampleEpisode : Episode := ⟨300001, 1, 1⟩

/-- An alternate-ordering sample episode. -/
def altEpisode : Episode := ⟨300002, 1, 1⟩

/-- A sample full payload with an aired episode set and one alternate
ordering. -/
def samplePayload : FullPayload :=
  { core := sampleCore, credits := [7, 8], genres := [3],
    episodeSets := [⟨.aired, [sampleEpisode]⟩, ⟨.alternate "dvd", [altEpisode]⟩] }

/-- Core fields of a show not yet cached. -/
def newCore : CoreFields := ⟨"New Show", "A fresh arrival."⟩

/-- A provider that always succeeds, basic and full. -/
def fetchingProvider : Provider :=
  ⟨fun _ _ => .ok newCore, fun _ _ => .ok samplePayload⟩

/-- A provider whose basic fetch matches `fetchingProvider` but whose
full fetch always fails — a stand-in for a hanging or broken background
provider. -/
def hangingFullProvider : Provider :=
  ⟨fun _ _ => .ok newCore, fun _ _ => .transientError⟩

/-- A state holding one freshly enqueued job for an identity that is
in flight — the situation right after `resolve` deferred a full sync. -/
def singleJobState (c : EntityClass) (xid : Nat) (st : List CachedEntity)
    (t : Int) (prio : Priority) : SysState :=
  { store := st, inflight := [(c, xid)],
    queue := [⟨c, xid, t, 0, prio⟩], syncLog := [] }

/-- The partial-full invariant of §3: every stored record flagged `full`
has a non-null `lastSyncedAt` and is, in its entirety (root and all
relational sub-entities), the committed result of one logical full-sync
operation. -/
def FullInv (s : SysState) : Prop :=
  ∀ e ∈ s.store, e.syncState = .full →
    e.lastSyncedAt.isSome = true ∧
    ∃ payload now, e = commitFull e.entityClass e.externalId payload now

/-- A concrete state produced by one cache-miss `resolve` followed by
one successful worker attempt: the store holds a committed full
record. -/
def demoState : SysState :=
  workerStep (.fetched samplePayload none) 5
    ((resolve fetchingProvider .series 81189 0 initState).state)

end ContentSync

namespace ContentSync

/-- Enqueueing never touches the store. -/
theorem enqueue_store_eq (c : EntityClass) (xid : Nat) (prio : Priority)
    (now : Int) (s : SysState) :
    ((enqueue c xid prio now s).2).store = s.store := by
  unfold enqueue
  split <;> rfl

/-- Enqueue on an already-in-flight identity is a pure no-op. -/
theorem enqueue_inflight {c : EntityClass} {xid : Nat} {prio : Priority}
    {now : Int} {s : SysState} (h : (c, xid) ∈ s.inflight) :
    enqueue c xid prio now s = (false, s) := by
  unfold enqueue
  rw [if_pos h]

/-- Enqueue on a not-in-flight identity marks it in-flight and pushes a
fresh job. -/
theorem enqueue_free {c : EntityClass} {xid : Nat} {prio : Priority}
    {now : Int} {s : SysState} (h : (c, xid) ∉ s.inflight) :
    enqueue c xid prio now s =
      (true, { s with
        inflight := (c, xid) :: s.inflight,
        queue := s.queue ++ [⟨c, xid, now, 0, prio⟩] }) := by
  unfold enqueue
  rw [if_neg h]

/-- `jobsFor` distributes over queue concatenation. -/
theorem jobsFor_append (q₁ q₂ : List SyncJob) (c : EntityClass) (xid : Nat) :
    jobsFor (q₁ ++ q₂) c xid = jobsFor q₁ c xid + jobsFor q₂ c xid := by
  simp [jobsFor, List.filter_append]

/-- A single job for the identity counts once. -/
theorem jobsFor_single (c : EntityClass) (xid : Nat) (t : Int) (a : Nat)
    (prio : Priority) :
    jobsFor [⟨c, xid, t, a, prio⟩] c xid = 1 := by
  simp [jobsFor]

/-- The shape of `resolve` on the stale-hit path. -/
theorem resolve_stale {p : Provider} {c : EntityClass} {xid : Nat} {now : Int}
    {s : SysState} {rec : CachedEntity}
    (hrec : getCachedEntity s.store c xid = some rec)
    (hst : isStale c rec.lastSyncedAt now = true) :
    resolve p c xid now s =
      { result := .ok (rec, .cacheStale),
        state := (enqueue c xid .interactive now s).2,
        providerCalls := 0 } := by
  unfold resolve
  rw [hrec]
  simp [hst]

/-- The shape of `resolve` on the fresh-hit path. -/
theorem resolve_fresh {p : Provider} {c : EntityClass} {xid : Nat} {now : Int}
    {s : SysState} {rec : CachedEntity}
    (hrec : getCachedEntity s.store c xid = some rec)
    (hst : isStale c rec.lastSyncedAt now = false) :
    resolve p c xid now s =
      { result := .ok (rec, .cacheFresh), state := s, providerCalls := 0 } := by
  unfold resolve
  rw [hrec]
  simp [hst]

/-- The shape of `resolve` on a cache miss when the provider returns the
basic payload. -/
theorem resolve_miss_ok {p : Provider} {c : EntityClass} {xid : Nat}
    {now : Int} {s : SysState} {core : CoreFields}
    (habs : getCachedEntity s.store c xid = none)
    (hok : p.fetchBasic c xid = .ok core) :
    resolve p c xid now s =
      { result := .ok (basicRecord c xid core, .fetchedNew),
        state := (enqueue c xid .interactive now
          { s with store := upsert s.store (basicRecord c xid core) }).2,
        providerCalls := 1 } := by
  unfold resolve
  rw [habs, hok]

/-- The shape of `resolve` on a cache miss when the provider reports
not-found. -/
theorem resolve_miss_notFound {p : Provider} {c : EntityClass} {xid : Nat}
    {now : Int} {s : SysState}
    (habs : getCachedEntity s.store c xid = none)
    (hnf : p.fetchBasic c xid = .notFound) :
    resolve p c xid now s =
      { result := .error .notFound, state := s, providerCalls := 1 } := by
  unfold resolve
  rw [habs, hnf]

/-- Reading back the identity just upserted yields the upserted row. -/
theorem getCachedEntity_upsert_self (store : List CachedEntity)
    (e : CachedEntity) :
    getCachedEntity (upsert store e) e.entityClass e.externalId = some e := by
  unfold getCachedEntity upsert
  simp [List.find?, matchesId]

/-- The shape of `resolve` on a cache miss when the provider fails
transiently. -/
theorem resolve_miss_transient {p : Provider} {c : EntityClass} {xid : Nat}
    {now : Int} {s : SysState}
    (habs : getCachedEntity s.store c xid = none)
    (htr : p.fetchBasic c xid = .transientError) :
    resolve p c xid now s =
      { result := .error .fetchFailure, state := s, providerCalls := 1 } := by
  unfold resolve
  rw [habs, htr]

/-- Clearing the only in-flight identity empties the gate. -/
theorem clearInflight_self (c : EntityClass) (xid : Nat) :
    clearInflight c xid [(c, xid)] = [] := by
  simp [clearInflight]

/-- The failure path of a sync attempt never touches the store. -/
theorem failJob_store_eq (job : SyncJob) (now : Int) (err : String)
    (s : SysState) : (failJob job now err s).store = s.store := by
  unfold failJob
  split <;> rfl

/-- A member of an upserted store is the upserted row or an old row. -/
theorem mem_upsert {e x : CachedEntity} {store : List CachedEntity}
    (h : e ∈ upsert store x) : e = x ∨ e ∈ store := by
  unfold upsert at h
  rcases List.mem_cons.mp h with h | h
  · exact Or.inl h
  · exact Or.inr (List.mem_of_mem_filter h)

/-- A full sync that reaches the commit point commits exactly one atomic
upsert of the completed record. -/
theorem runFullSync_some {c : EntityClass} {xid : Nat} {payload : FullPayload}
    {now : Int} {failAfter : Option Nat} {store st₂ : List CachedEntity}
    (h : runFullSync c xid payload now failAfter store = some st₂) :
    st₂ = upsert store (commitFull c xid payload now) := by
  cases failAfter with
  | none =>
    simp only [runFullSync] at h
    exact (Option.some.inj h).symm
  | some k =>
    simp only [runFullSync] at h
    by_cases hk : k < (subWrites payload).length
    · rw [if_pos hk] at h
      cases h
    · rw [if_neg hk] at h
      exact (Option.some.inj h).symm

/-- Staged sub-entity writes never change the identity of the record
under construction. -/
theorem foldl_applySubWrite_ids (ws : List SubWrite) (e : CachedEntity) :
    (ws.foldl applySubWrite e).entityClass = e.entityClass ∧
    (ws.foldl applySubWrite e).externalId = e.externalId := by
  induction ws generalizing e with
  | nil => exact ⟨rfl, rfl⟩
  | cons w ws ih =>
    have hw : (applySubWrite e w).entityClass = e.entityClass ∧
        (applySubWrite e w).externalId = e.externalId := by
      cases w <;> exact ⟨rfl, rfl⟩
    rcases ih (applySubWrite e w) with ⟨h₁, h₂⟩
    exact ⟨by rw [List.foldl_cons, h₁, hw.1], by rw [List.foldl_cons, h₂, hw.2]⟩

/-- The committed record of a full sync keeps the sync's entity class. -/
theorem commitFull_entityClass (c : EntityClass) (xid : Nat)
    (payload : FullPayload) (now : Int) :
    (commitFull c xid payload now).entityClass = c := by
  show (stagedRecord c xid payload (subWrites payload).length).entityClass = c
  unfold stagedRecord
  exact (foldl_applySubWrite_ids _ _).1

/-- The committed record of a full sync keeps the sync's external id. -/
theorem commitFull_externalId (c : EntityClass) (xid : Nat)
    (payload : FullPayload) (now : Int) :
    (commitFull c xid payload now).externalId = xid := by
  show (stagedRecord c xid payload (subWrites payload).length).externalId = xid
  unfold stagedRecord
  exact (foldl_applySubWrite_ids _ _).2

/-- Upserting any row preserves presence of every identity. -/
theorem getCachedEntity_upsert_isSome {store : List CachedEntity}
    {x : CachedEntity} {c : EntityClass} {xid : Nat}
    (h : (getCachedEntity store c xid).isSome = true) :
    (getCachedEntity (upsert store x) c xid).isSome = true := by
  unfold getCachedEntity at h ⊢
  unfold upsert
  rw [List.find?_isSome] at h ⊢
  rcases h with ⟨e, he, hm⟩
  by_cases hx : matchesId c xid x = true
  · exact ⟨x, List.mem_cons_self _ _, hx⟩
  · refine ⟨e, List.mem_cons_of_mem _ (List.mem_filter.mpr ⟨he, ?_⟩), hm⟩
    rcases (by simpa [matchesId] using hm : e.entityClass = c ∧ e.externalId = xid)
      with ⟨hc, hxi⟩
    simp only [matchesId, Bool.not_eq_true', decide_eq_false_iff_not]
    rintro ⟨h₁, h₂⟩
    exact hx (by simp [matchesId, ← h₁, ← h₂, hc, hxi])

/-- One worker iteration either leaves the store alone (failure paths,
empty queue) or commits a single upsert (success path). -/
theorem workerStep_store (ev : SyncEvent) (now : Int) (s : SysState) :
    (workerStep ev now s).store = s.store ∨
    ∃ x, (workerStep ev now s).store = upsert s.store x := by
  unfold workerStep
  split
  · exact Or.inl rfl
  · rename_i job rest heq
    cases ev with
    | fetchFailed => exact Or.inl (failJob_store_eq _ _ _ _)
    | fetched payload failAfter =>
      simp only [processJob]
      split
      · exact Or.inl (failJob_store_eq _ _ _ _)
      · rename_i st₂ heq₂
        exact Or.inr ⟨commitFull job.entityClass job.externalId payload now,
          runFullSync_some heq₂⟩

/-- Running the worker over any event sequence preserves presence of
every identity — records are never deleted by background work. -/
theorem present_runWorker {evs : List (SyncEvent × Int)} {s : SysState}
    {c : EntityClass} {xid : Nat}
    (h : (getCachedEntity s.store c xid).isSome = true) :
    (getCachedEntity ((runWorker evs s).store) c xid).isSome = true := by
  induction evs generalizing s with
  | nil => exact h
  | cons e evs ih =>
    show (getCachedEntity ((runWorker evs (workerStep e.1 e.2 s)).store) c xid).isSome = true
    apply ih
    rcases workerStep_store e.1 e.2 s with hst | ⟨x, hst⟩
    · rw [hst]
      exact h
    · rw [hst]
      exact getCachedEntity_upsert_isSome h

/-- `resolve` on a present identity always returns a typed success. -/
theorem resolve_present_ok {p : Provider} {c : EntityClass} {xid : Nat}
    {now : Int} {s : SysState}
    (h : (getCachedEntity s.store c xid).isSome = true) :
    ∃ r, (resolve p c xid now s).result = .ok r := by
  cases hG : getCachedEntity s.store c xid with
  | none =>
    rw [hG] at h
    cases h
  | some rec =>
    cases hst : isStale c rec.lastSyncedAt now with
    | true => exact ⟨(rec, .cacheStale), by rw [resolve_stale hG hst]⟩
    | false => exact ⟨(rec, .cacheFresh), by rw [resolve_fresh hG hst]⟩

/-- `resolve` never consults the provider's full fetch: two providers
agreeing on the basic fetch are indistinguishable to it. -/
theorem resolve_fetchFull_irrelevant (p₁ p₂ : Provider)
    (hb : p₁.fetchBasic = p₂.fetchBasic) (c : EntityClass) (xid : Nat)
    (now : Int) (s : SysState) :
    resolve p₁ c xid now s = resolve p₂ c xid now s := by
  unfold resolve
  rw [hb]

/-- A provider failure inside a worker iteration leaves the store
untouched. -/
theorem workerStep_fetchFail_store (now : Int) (s : SysState) :
    (workerStep .fetchFailed now s).store = s.store := by
  unfold workerStep
  split
  · rfl
  · exact failJob_store_eq _ _ _ _

/-- A store failure injected after partial sub-entity writes leaves the
visible store untouched: the staging is discarded whole. -/
theorem workerStep_storeFail_store {payload : FullPayload} {k : Nat}
    (hk : k < (subWrites payload).length) (now : Int) (s : SysState) :
    (workerStep (.fetched payload (some k)) now s).store = s.store := by
  unfold workerStep
  split
  · rfl
  · unfold processJob
    simp only [runFullSync]
    rw [if_pos hk]
    exact failJob_store_eq _ _ _ _

/-- Enqueueing preserves the partial-full invariant (it never writes the
store). -/
theorem fullInv_enqueue (c : EntityClass) (xid : Nat) (prio : Priority)
    (now : Int) (s : SysState) (h : FullInv s) :
    FullInv (enqueue c xid prio now s).2 := by
  intro e he hf
  rw [enqueue_store_eq] at he
  exact h e he hf

/-- `resolve` preserves the partial-full invariant: the only record it
ever writes is a `basic` one. -/
theorem fullInv_resolve (p : Provider) (c : EntityClass) (xid : Nat)
    (now : Int) (s : SysState) (h : FullInv s) :
    FullInv (resolve p c xid now s).state := by
  cases hG : getCachedEntity s.store c xid with
  | some rec =>
    cases hst : isStale c rec.lastSyncedAt now with
    | true =>
      rw [resolve_stale hG hst]
      exact fullInv_enqueue _ _ _ _ _ h
    | false =>
      rw [resolve_fresh hG hst]
      exact h
  | none =>
    cases hF : p.fetchBasic c xid with
    | notFound =>
      rw [resolve_miss_notFound hG hF]
      exact h
    | transientError =>
      rw [resolve_miss_transient hG hF]
      exact h
    | ok core =>
      rw [resolve_miss_ok hG hF]
      intro e he hf
      rw [enqueue_store_eq] at he
      rcases mem_upsert he with rfl | he₂
      · simp [basicRecord] at hf
      · exact h e he₂ hf

/-- A worker iteration preserves the partial-full invariant: failure
paths never write the store, and the success path commits exactly one
completed record whose `lastSyncedAt` is set and whose contents are the
one sync's staged writes. -/
theorem fullInv_worker (ev : SyncEvent) (now : Int) (s : SysState)
    (h : FullInv s) : FullInv (workerStep ev now s) := by
  unfold workerStep
  split
  · exact h
  · rename_i job rest heq
    cases ev with
    | fetchFailed =>
      intro e he hf
      simp only [processJob] at he
      rw [failJob_store_eq] at he
      exact h e he hf
    | fetched payload failAfter =>
      simp only [processJob]
      split
      · intro e he hf
        rw [failJob_store_eq] at he
        exact h e he hf
      · rename_i st₂ heq₂
        intro e he hf
        have hcommit := runFullSync_some heq₂
        rw [hcommit] at he
        rcases mem_upsert he with rfl | he₂
        · refine ⟨rfl, payload, now, ?_⟩
          rw [commitFull_entityClass, commitFull_externalId]
        · exact h e he₂ hf

/-- Every reachable state satisfies the partial-full invariant. -/
theorem fullInv_reachable {s : SysState} (h : Reachable s) : FullInv s := by
  induction h with
  | init =>
    intro e he _
    cases he
  | step _ hstep ih =>
    cases hstep with
    | resolveStep p c xid now => exact fullInv_resolve p c xid now _ ih
    | syncStep ev now => exact fullInv_worker ev now _ ih

/-- The demo state is reachable: one cache-miss `resolve`, then one
successful worker attempt. -/
theorem demoState_reachable : Reachable demoState :=
  Reachable.step
    (Reachable.step Reachable.init
      (Step.resolveStep fetchingProvider .series 81189 0 initState))
    (Step.syncStep (.fetched samplePayload none) 5
      ((resolve fetchingProvider .series 81189 0 initState).state))

/-- C3: `isStale` returns true on a null `lastSyncedAt`, otherwise true
iff `now - lastSyncedAt > ttl entityClass`, with TTL 7 days for series
and movie and 14 days for person; it is a pure function (its value
depends only on its arguments; the model has no effects). -/
theorem c3_isStale_contract (c : EntityClass) (now : Int) :
    isStale c none now = true ∧
    (∀ t : Int, isStale c (some t) now = true ↔ now - t > ttl c) ∧
    ttl .series = 7 ∧ ttl .movie = 7 ∧ ttl .person = 14 := by
  refine ⟨rfl, fun t => ?_, rfl, rfl, rfl⟩
  simp [isStale]

/-- C10: for a fixed `lastSyncedAt` and entity class, staleness is
monotone as `now` advances — once stale, always stale. -/
theorem c10_isStale_monotone (c : EntityClass) (last : Option Int)
    (now₁ now₂ : Int) (hle : now₁ ≤ now₂)
    (h : isStale c last now₁ = true) : isStale c last now₂ = true := by
  cases last with
  | none => rfl
  | some t =>
    simp only [isStale, decide_eq_true_eq] at h ⊢
    omega

/-- Witness for C10: a record last synced at day 0 is stale for a series
at day 8, hence also at day 9. -/
theorem c10_isStale_monotone_witness :
    (8 : Int) ≤ 9 ∧ isStale .series (some 0) 8 = true ∧
    isStale .series (some 0) 9 = true :=
  ⟨by decide, by decide, c10_isStale_monotone .series (some 0) 8 9 (by decide) (by decide)⟩

/-- C4: when the record is present and fresh, `resolve` returns it as
`cache-fresh` and is effect-free — the full state (store, in-flight set,
queue, sync log) is returned unchanged and zero provider calls are
made. -/
theorem c4_cache_fresh_no_effect (p : Provider) (c : EntityClass) (xid : Nat)
    (now : Int) (s : SysState) (rec : CachedEntity)
    (hrec : getCachedEntity s.store c xid = some rec)
    (hfresh : isStale c rec.lastSyncedAt now = false) :
    resolve p c xid now s =
      { result := .ok (rec, .cacheFresh), state := s, providerCalls := 0 } :=
  resolve_fresh hrec hfresh

/-- Witness for C4: the sample record synced at day 0 served at day 2. -/
theorem c4_cache_fresh_no_effect_witness :
    getCachedEntity sampleState.store .series 81189 = some sampleRecord ∧
    isStale .series sampleRecord.lastSyncedAt 2 = false ∧
    resolve quietProvider .series 81189 2 sampleState =
      { result := .ok (sampleRecord, .cacheFresh), state := sampleState,
        providerCalls := 0 } :=
  ⟨by decide, by decide,
    c4_cache_fresh_no_effect quietProvider .series 81189 2 sampleState
      sampleRecord (by decide) (by decide)⟩

/-- C5: the dedup gate admits at most one in-flight job per identity —
`enqueue` on an in-flight identity returns `false` and changes nothing;
on a free identity it marks the identity in-flight, pushes one job and
returns `true`; enqueueing twice in a row therefore queues exactly one
job, the second call returning `false` with the state untouched. -/
theorem c5_dedup_at_most_one_inflight (c : EntityClass) (xid : Nat)
    (prio₁ prio₂ prio₃ : Priority) (now₁ now₂ now₃ : Int) (s t : SysState)
    (hfree : (c, xid) ∉ s.inflight) (hbusy : (c, xid) ∈ t.inflight) :
    enqueue c xid prio₃ now₃ t = (false, t) ∧
    enqueue c xid prio₁ now₁ s =
      (true, { s with
        inflight := (c, xid) :: s.inflight,
        queue := s.queue ++ [⟨c, xid, now₁, 0, prio₁⟩] }) ∧
    enqueue c xid prio₂ now₂ (enqueue c xid prio₁ now₁ s).2 =
      (false, (enqueue c xid prio₁ now₁ s).2) ∧
    jobsFor ((enqueue c xid prio₂ now₂ (enqueue c xid prio₁ now₁ s).2).2).queue
        c xid = jobsFor s.queue c xid + 1 := by
  have h₁ := @enqueue_free c xid prio₁ now₁ s hfree
  have hmem : (c, xid) ∈ ((enqueue c xid prio₁ now₁ s).2).inflight := by
    rw [h₁]
    exact List.mem_cons_self _ _
  have h₂ := @enqueue_inflight c xid prio₂ now₂ _ hmem
  refine ⟨enqueue_inflight hbusy, h₁, h₂, ?_⟩
  rw [h₂, h₁]
  simp [jobsFor_append, jobsFor_single]

/-- Witness for C5: double-enqueue of series 81189 on the sample state,
and a no-op enqueue on a state where it is already in flight. -/
theorem c5_dedup_at_most_one_inflight_witness :
    ((.series, 81189) : Identity) ∉ sampleState.inflight ∧
    ((.series, 81189) : Identity) ∈
      (SysState.mk [] [(.series, 81189)] [] []).inflight ∧
    (enqueue .series 81189 .background 3 (SysState.mk [] [(.series, 81189)] [] []) =
      (false, SysState.mk [] [(.series, 81189)] [] []) ∧
    enqueue .series 81189 .interactive 1 sampleState =
      (true, { sampleState with
        inflight := (.series, 81189) :: sampleState.inflight,
        queue := sampleState.queue ++ [⟨.series, 81189, 1, 0, .interactive⟩] }) ∧
    enqueue .series 81189 .interactive 2
        (enqueue .series 81189 .interactive 1 sampleState).2 =
      (false, (enqueue .series 81189 .interactive 1 sampleState).2) ∧
    jobsFor ((enqueue .series 81189 .interactive 2
        (enqueue .series 81189 .interactive 1 sampleState).2).2).queue
        .series 81189 = jobsFor sampleState.queue .series 81189 + 1) :=
  ⟨by decide, by decide,
    c5_dedup_at_most_one_inflight .series 81189 .interactive .interactive
      .background 1 2 3 sampleState (SysState.mk [] [(.series, 81189)] [] [])
      (by decide) (by decide)⟩

/-- C1: on a stale hit, `resolve` serves the stored record as
`cache-stale` with zero synchronous provider calls and an unchanged
store, and enqueues exactly one full-sync job; a second call in quick
succession (any later time) again serves the stored record with zero
provider calls and still leaves exactly one job queued — the dedup gate
drops the duplicate. -/
theorem c1_stale_serves_cache_enqueues_once (p : Provider) (c : EntityClass)
    (xid : Nat) (now₁ now₂ : Int) (s : SysState) (rec : CachedEntity)
    (hrec : getCachedEntity s.store c xid = some rec)
    (hst : isStale c rec.lastSyncedAt now₁ = true)
    (hle : now₁ ≤ now₂)
    (hfree : (c, xid) ∉ s.inflight)
    (h0 : jobsFor s.queue c xid = 0) :
    (resolve p c xid now₁ s).result = .ok (rec, .cacheStale) ∧
    (resolve p c xid now₁ s).providerCalls = 0 ∧
    ((resolve p c xid now₁ s).state).store = s.store ∧
    jobsFor ((resolve p c xid now₁ s).state).queue c xid = 1 ∧
    (resolve p c xid now₂ ((resolve p c xid now₁ s).state)).result =
      .ok (rec, .cacheStale) ∧
    (resolve p c xid now₂ ((resolve p c xid now₁ s).state)).providerCalls = 0 ∧
    jobsFor ((resolve p c xid now₂
      ((resolve p c xid now₁ s).state)).state).queue c xid = 1 := by
  have h₁ := resolve_stale (p := p) hrec hst
  have henq := @enqueue_free c xid Priority.interactive now₁ s hfree
  have hstate : (resolve p c xid now₁ s).state =
      { s with inflight := (c, xid) :: s.inflight,
               queue := s.queue ++ [⟨c, xid, now₁, 0, .interactive⟩] } := by
    rw [h₁, henq]
  have hrec₂ : getCachedEntity ((resolve p c xid now₁ s).state).store c xid =
      some rec := by
    rw [hstate]
    exact hrec
  have hst₂ : isStale c rec.lastSyncedAt now₂ = true := by
    cases hL : rec.lastSyncedAt with
    | none => rfl
    | some t =>
      rw [hL] at hst
      simp only [isStale, decide_eq_true_eq] at hst ⊢
      omega
  have h₂ := resolve_stale (p := p) hrec₂ hst₂
  have hmem : (c, xid) ∈ ((resolve p c xid now₁ s).state).inflight := by
    rw [hstate]
    exact List.mem_cons_self _ _
  have henq₂ := @enqueue_inflight c xid Priority.interactive now₂ _ hmem
  have hstate₂ : (resolve p c xid now₂ ((resolve p c xid now₁ s).state)).state =
      (resolve p c xid now₁ s).state := by
    rw [h₂, henq₂]
  refine ⟨by rw [h₁], by rw [h₁], by rw [hstate], ?_, by rw [h₂], by rw [h₂], ?_⟩
  · rw [hstate]
    simp [jobsFor_append, jobsFor_single, h0]
  · rw [hstate₂, hstate]
    simp [jobsFor_append, jobsFor_single, h0]

/-- Witness for C1: the sample record, synced day 0, resolved at days 10
and 11. -/
theorem c1_stale_serves_cache_enqueues_once_witness :
    getCachedEntity sampleState.store .series 81189 = some sampleRecord ∧
    isStale .series sampleRecord.lastSyncedAt 10 = true ∧
    (10 : Int) ≤ 11 ∧
    ((.series, 81189) : Identity) ∉ sampleState.inflight ∧
    jobsFor sampleState.queue .series 81189 = 0 ∧
    ((resolve quietProvider .series 81189 10 sampleState).result =
      .ok (sampleRecord, .cacheStale) ∧
    (resolve quietProvider .series 81189 10 sampleState).providerCalls = 0 ∧
    ((resolve quietProvider .series 81189 10 sampleState).state).store =
      sampleState.store ∧
    jobsFor ((resolve quietProvider .series 81189 10 sampleState).state).queue
      .series 81189 = 1 ∧
    (resolve quietProvider .series 81189 11
      ((resolve quietProvider .series 81189 10 sampleState).state)).result =
      .ok (sampleRecord, .cacheStale) ∧
    (resolve quietProvider .series 81189 11
      ((resolve quietProvider .series 81189 10 sampleState).state)).providerCalls
      = 0 ∧
    jobsFor ((resolve quietProvider .series 81189 11
      ((resolve quietProvider .series 81189 10 sampleState).state)).state).queue
      .series 81189 = 1) :=
  ⟨by decide, by decide, by decide, by decide, by decide,
    c1_stale_serves_cache_enqueues_once quietProvider .series 81189 10 11
      sampleState sampleRecord (by decide) (by decide) (by decide) (by decide)
      (by decide)⟩

/-- C2: on a cache miss, `resolve` makes one synchronous provider call;
a provider not-found surfaces to the caller with the state untouched (no
retry); on provider success it persists a basic record (readable back
from the store, `syncState = basic`, null `lastSyncedAt`), enqueues
exactly one full-sync job for the identity, and returns the basic record
as `fetched-new` — the full sync stays deferred to the queue. -/
theorem c2_miss_fetches_persists_defers (p pNF : Provider) (c : EntityClass)
    (xid : Nat) (now : Int) (s : SysState) (core : CoreFields)
    (habs : getCachedEntity s.store c xid = none)
    (hfree : (c, xid) ∉ s.inflight)
    (h0 : jobsFor s.queue c xid = 0)
    (hok : p.fetchBasic c xid = .ok core)
    (hnf : pNF.fetchBasic c xid = .notFound) :
    resolve pNF c xid now s =
      { result := .error .notFound, state := s, providerCalls := 1 } ∧
    (resolve p c xid now s).result = .ok (basicRecord c xid core, .fetchedNew) ∧
    (resolve p c xid now s).providerCalls = 1 ∧
    getCachedEntity ((resolve p c xid now s).state).store c xid =
      some (basicRecord c xid core) ∧
    (basicRecord c xid core).syncState = .basic ∧
    (basicRecord c xid core).lastSyncedAt = none ∧
    jobsFor ((resolve p c xid now s).state).queue c xid = 1 := by
  have h₁ := @resolve_miss_ok p c xid now s core habs hok
  have henq := @enqueue_free c xid Priority.interactive now
    { s with store := upsert s.store (basicRecord c xid core) } hfree
  have hstate : (resolve p c xid now s).state =
      { s with
        store := upsert s.store (basicRecord c xid core),
        inflight := (c, xid) :: s.inflight,
        queue := s.queue ++ [⟨c, xid, now, 0, .interactive⟩] } := by
    rw [h₁, henq]
  refine ⟨resolve_miss_notFound habs hnf, by rw [h₁], by rw [h₁], ?_, rfl, rfl, ?_⟩
  · rw [hstate]
    exact getCachedEntity_upsert_self s.store (basicRecord c xid core)
  · rw [hstate]
    simp [jobsFor_append, jobsFor_single, h0]

/-- Witness for C2: series 81189 requested on the empty state, against a
provider that succeeds and one that reports not-found. -/
theorem c2_miss_fetches_persists_defers_witness :
    getCachedEntity initState.store .series 81189 = none ∧
    ((.series, 81189) : Identity) ∉ initState.inflight ∧
    jobsFor initState.queue .series 81189 = 0 ∧
    fetchingProvider.fetchBasic .series 81189 = .ok newCore ∧
    notFoundProvider.fetchBasic .series 81189 = .notFound ∧
    (resolve notFoundProvider .series 81189 0 initState =
      { result := .error .notFound, state := initState, providerCalls := 1 } ∧
    (resolve fetchingProvider .series 81189 0 initState).result =
      .ok (basicRecord .series 81189 newCore, .fetchedNew) ∧
    (resolve fetchingProvider .series 81189 0 initState).providerCalls = 1 ∧
    getCachedEntity
      ((resolve fetchingProvider .series 81189 0 initState).state).store
      .series 81189 = some (basicRecord .series 81189 newCore) ∧
    (basicRecord .series 81189 newCore).syncState = .basic ∧
    (basicRecord .series 81189 newCore).lastSyncedAt = none ∧
    jobsFor ((resolve fetchingProvider .series 81189 0 initState).state).queue
      .series 81189 = 1) :=
  ⟨by decide, by decide, by decide, by decide, by decide,
    c2_miss_fetches_persists_defers fetchingProvider notFoundProvider
      .series 81189 0 initState newCore (by decide) (by decide) (by decide)
      (by decide) (by decide)⟩

/-- C6: against a provider that always fails, a job enqueued at attempt
0 is attempted exactly `maxRetries + 1` times — the initial attempt plus
three retries, each re-enqueued with `attempt + 1` — producing three
`retrying` log entries and one terminal `failed` entry; the in-flight
marker is then cleared, the store is untouched, and no further worker
iteration does anything. -/
theorem c6_retry_bound_exhaustion (c : EntityClass) (xid : Nat)
    (st : List CachedEntity) (t now : Int) (prio : Priority) :
    (runWorker (List.replicate (maxRetries + 1) (.fetchFailed, now))
        (singleJobState c xid st t prio)).syncLog =
      [⟨c, xid, 0, .retrying, now, some "provider fetch failed"⟩,
       ⟨c, xid, 1, .retrying, now, some "provider fetch failed"⟩,
       ⟨c, xid, 2, .retrying, now, some "provider fetch failed"⟩,
       ⟨c, xid, 3, .failed, now, some "provider fetch failed"⟩] ∧
    (runWorker (List.replicate (maxRetries + 1) (.fetchFailed, now))
        (singleJobState c xid st t prio)).syncLog.length = maxRetries + 1 ∧
    (runWorker (List.replicate (maxRetries + 1) (.fetchFailed, now))
        (singleJobState c xid st t prio)).queue = [] ∧
    (runWorker (List.replicate (maxRetries + 1) (.fetchFailed, now))
        (singleJobState c xid st t prio)).inflight = [] ∧
    (runWorker (List.replicate (maxRetries + 1) (.fetchFailed, now))
        (singleJobState c xid st t prio)).store = st ∧
    (∀ (ev : SyncEvent) (n : Int),
      workerStep ev n (runWorker (List.replicate (maxRetries + 1)
        (.fetchFailed, now)) (singleJobState c xid st t prio)) =
      runWorker (List.replicate (maxRetries + 1) (.fetchFailed, now))
        (singleJobState c xid st t prio)) := by
  have h₁ : workerStep .fetchFailed now (singleJobState c xid st t prio) =
      { store := st, inflight := [(c, xid)],
        queue := [⟨c, xid, now + backoffDelay 0, 1, prio⟩],
        syncLog := [⟨c, xid, 0, .retrying, now, some "provider fetch failed"⟩] } := rfl
  have h₂ : workerStep .fetchFailed now
      { store := st, inflight := [(c, xid)],
        queue := [⟨c, xid, now + backoffDelay 0, 1, prio⟩],
        syncLog := [⟨c, xid, 0, .retrying, now, some "provider fetch failed"⟩] } =
      { store := st, inflight := [(c, xid)],
        queue := [⟨c, xid, now + backoffDelay 1, 2, prio⟩],
        syncLog := [⟨c, xid, 0, .retrying, now, some "provider fetch failed"⟩,
                    ⟨c, xid, 1, .retrying, now, some "provider fetch failed"⟩] } := rfl
  have h₃ : workerStep .fetchFailed now
      { store := st, inflight := [(c, xid)],
        queue := [⟨c, xid, now + backoffDelay 1, 2, prio⟩],
        syncLog := [⟨c, xid, 0, .retrying, now, some "provider fetch failed"⟩,
                    ⟨c, xid, 1, .retrying, now, some "provider fetch failed"⟩] } =
      { store := st, inflight := [(c, xid)],
        queue := [⟨c, xid, now + backoffDelay 2, 3, prio⟩],
        syncLog := [⟨c, xid, 0, .retrying, now, some "provider fetch failed"⟩,
                    ⟨c, xid, 1, .retrying, now, some "provider fetch failed"⟩,
                    ⟨c, xid, 2, .retrying, now, some "provider fetch failed"⟩] } := rfl
  have h₄ : workerStep .fetchFailed now
      { store := st, inflight := [(c, xid)],
        queue := [⟨c, xid, now + backoffDelay 2, 3, prio⟩],
        syncLog := [⟨c, xid, 0, .retrying, now, some "provider fetch failed"⟩,
                    ⟨c, xid, 1, .retrying, now, some "provider fetch failed"⟩,
                    ⟨c, xid, 2, .retrying, now, some "provider fetch failed"⟩] } =
      { store := st, inflight := clearInflight c xid [(c, xid)], queue := [],
        syncLog := [⟨c, xid, 0, .retrying, now, some "provider fetch failed"⟩,
                    ⟨c, xid, 1, .retrying, now, some "provider fetch failed"⟩,
                    ⟨c, xid, 2, .retrying, now, some "provider fetch failed"⟩,
                    ⟨c, xid, 3, .failed, now, some "provider fetch failed"⟩] } := rfl
  have hrun : runWorker (List.replicate (maxRetries + 1) (.fetchFailed, now))
      (singleJobState c xid st t prio) =
      { store := st, inflight := [], queue := [],
        syncLog := [⟨c, xid, 0, .retrying, now, some "provider fetch failed"⟩,
                    ⟨c, xid, 1, .retrying, now, some "provider fetch failed"⟩,
                    ⟨c, xid, 2, .retrying, now, some "provider fetch failed"⟩,
                    ⟨c, xid, 3, .failed, now, some "provider fetch failed"⟩] } := by
    show workerStep .fetchFailed now (workerStep .fetchFailed now
      (workerStep .fetchFailed now (workerStep .fetchFailed now
        (singleJobState c xid st t prio)))) = _
    rw [h₁, h₂, h₃, h₄, clearInflight_self]
  refine ⟨by rw [hrun], by rw [hrun]; rfl, by rw [hrun], by rw [hrun],
    by rw [hrun], fun ev n => ?_⟩
  rw [hrun]
  rfl

/-- C7: in every reachable state, a `full`-flagged record has a non-null
`lastSyncedAt` and is in its entirety the committed result of one
logical full-sync operation (root and all sub-entities written
together); moreover a sync failing after partial sub-entity writes, or a
provider failure, leaves the visible store — sync states and previously
committed sub-entities included — exactly as it was. -/
theorem c7_partial_full_invariant (s : SysState) (hs : Reachable s)
    (e : CachedEntity) (he : e ∈ s.store) (hf : e.syncState = .full)
    (payload : FullPayload) (k : Nat) (now : Int) (t : SysState)
    (hk : k < (subWrites payload).length) :
    (e.lastSyncedAt.isSome = true ∧
      ∃ pl n, e = commitFull e.entityClass e.externalId pl n) ∧
    (workerStep (.fetched payload (some k)) now t).store = t.store ∧
    (workerStep .fetchFailed now t).store = t.store :=
  ⟨fullInv_reachable hs e he hf,
   workerStep_storeFail_store hk now t,
   workerStep_fetchFail_store now t⟩

/-- Witness for C7: the committed record of the demo run, plus failure
injections on the sample state. -/
theorem c7_partial_full_invariant_witness :
    Reachable demoState ∧
    commitFull .series 81189 samplePayload 5 ∈ demoState.store ∧
    (commitFull .series 81189 samplePayload 5).syncState = .full ∧
    0 < (subWrites samplePayload).length ∧
    (((commitFull .series 81189 samplePayload 5).lastSyncedAt.isSome = true ∧
      ∃ pl n, commitFull .series 81189 samplePayload 5 =
        commitFull (commitFull .series 81189 samplePayload 5).entityClass
          (commitFull .series 81189 samplePayload 5).externalId pl n) ∧
    (workerStep (.fetched samplePayload (some 0)) 6 sampleState).store =
      sampleState.store ∧
    (workerStep .fetchFailed 6 sampleState).store = sampleState.store) :=
  ⟨demoState_reachable, by decide, by decide, by decide,
    c7_partial_full_invariant demoState demoState_reachable
      (commitFull .series 81189 samplePayload 5) (by decide) (by decide)
      samplePayload 0 6 sampleState (by decide)⟩

/-- C8: background sync failures never reach a `resolve` caller:
`resolve` is blind to the full-fetch side of the provider, failing
worker iterations (provider failure or injected store failure) leave the
store untouched — their traces go only to the sync log, queue and
in-flight set — and after any sequence of background events, a present
identity still resolves to a typed success, never an error. -/
theorem c8_background_failures_confined (p₁ p₂ : Provider) (c : EntityClass)
    (xid : Nat) (now n : Int) (s : SysState) (evs : List (SyncEvent × Int))
    (rec : CachedEntity) (payload : FullPayload) (k : Nat)
    (hb : p₁.fetchBasic = p₂.fetchBasic)
    (hrec : getCachedEntity s.store c xid = some rec)
    (hk : k < (subWrites payload).length) :
    resolve p₁ c xid now s = resolve p₂ c xid now s ∧
    (workerStep .fetchFailed n s).store = s.store ∧
    (workerStep (.fetched payload (some k)) n s).store = s.store ∧
    ∃ r, (resolve p₁ c xid now (runWorker evs s)).result = .ok r := by
  refine ⟨resolve_fetchFull_irrelevant p₁ p₂ hb c xid now s,
    workerStep_fetchFail_store n s, workerStep_storeFail_store hk n s, ?_⟩
  exact resolve_present_ok (present_runWorker (by rw [hrec]; rfl))

/-- Witness for C8: the sample record survives a failing background
attempt and still resolves successfully. -/
theorem c8_background_failures_confined_witness :
    fetchingProvider.fetchBasic = hangingFullProvider.fetchBasic ∧
    getCachedEntity sampleState.store .series 81189 = some sampleRecord ∧
    0 < (subWrites samplePayload).length ∧
    (resolve fetchingProvider .series 81189 2 sampleState =
      resolve hangingFullProvider .series 81189 2 sampleState ∧
    (workerStep .fetchFailed 3 sampleState).store = sampleState.store ∧
    (workerStep (.fetched samplePayload (some 0)) 3 sampleState).store =
      sampleState.store ∧
    ∃ r, (resolve fetchingProvider .series 81189 2
      (runWorker [(.fetchFailed, 3)] sampleState)).result = .ok r) :=
  ⟨rfl, by decide, by decide,
    c8_background_failures_confined fetchingProvider hangingFullProvider
      .series 81189 2 3 sampleState [(.fetchFailed, 3)] sampleRecord
      samplePayload 0 rfl (by decide) (by decide)⟩

/-- C9: a full sync persists exactly the aired-order episodes: the
committed record's episode list is the aired-episode filter of the
payload, an episode is persisted iff it belongs to an episode set
labelled with the canonical aired ordering (so every alternate
ordering's sets are discarded), and the successful sync commits exactly
that record. -/
theorem c9_aired_order_episodes_only (c : EntityClass) (xid : Nat)
    (payload : FullPayload) (now : Int) (e : Episode)
    (store : List CachedEntity) :
    (commitFull c xid payload now).episodes = airedEpisodes payload ∧
    (e ∈ airedEpisodes payload ↔
      ∃ es ∈ payload.episodeSets, es.ordering = .aired ∧ e ∈ es.episodes) ∧
    runFullSync c xid payload now none store =
      some (upsert store (commitFull c xid payload now)) := by
  refine ⟨?_, ?_, rfl⟩
  · show (stagedRecord c xid payload (subWrites payload).length).episodes = _
    unfold stagedRecord
    rw [List.take_length]
    unfold subWrites
    rw [List.foldl_append]
    simp [applySubWrite]
  · simp only [airedEpisodes, List.mem_flatten, List.mem_map, List.mem_filter,
      decide_eq_true_eq]
    constructor
    · rintro ⟨l, ⟨es, ⟨hes, hord⟩, rfl⟩, hel⟩
      exact ⟨es, hes, hord, hel⟩
    · rintro ⟨es, hes, hord, hel⟩
      exact ⟨es.episodes, ⟨es, ⟨hes, hord⟩, rfl⟩, hel⟩

end ContentSync
